import Mathlib

/-!
Verification development for the kumo-rfm-mcp session/graph metadata core.

The Python source keeps its metadata state in `kumoai` `LocalTable`/`LocalGraph`
objects manipulated by the MCP tool functions.  We embed:

* the data model (`Dtype`, `Stype`, column descriptors, tables, graph, session);
* the kumoai graph-store operations (`link`, `unlink`, `remove_table`,
  `add_table`, column operations), which the repository only calls — these are
  modelled from the spec (sections 3, 4.1 and 4.2) and carry a
  `Modelled from the spec:` doc comment;
* the tool functions from `graph_tools.py`, `table_tools.py` and
  `model_tools.py`, translated directly from the source;
* the batch metadata update engine of `tools/graph.py` (absent from the source
  snapshot; only its tests and its declarations in `__init__.py` remain), and
  the `Session.initialize` credential check of the missing `session.py`
  (pinned by `test/test_session.py`) — both modelled from the spec.

External collaborators (file loader + schema inference, stype validation, the
inference service, timestamp parsing) are passed in as explicit function
arguments, mirroring section 6 of the spec.
-/

namespace KumoRfmMcp

/-- Storage data types (`kumoapi.typing.Dtype`, restricted to the primitive
kinds the spec names in section 3). -/
inductive Dtype | int | float | string | bool | date | timestamp | unsupported
deriving DecidableEq

/-- Semantic types (`kumoapi.typing.Stype`), the closed set of section 3. -/
inductive Stype | numerical | categorical | multicategorical | ID | text | timestamp
deriving DecidableEq

/-- A column descriptor: storage data type plus semantic type
(spec section 3, Column Descriptor). -/
structure Column where
  dtype : Dtype
  stype : Stype
deriving DecidableEq

/-- First-match association-list lookup keyed by column or table name. -/
def alLookup {β : Type} : List (String × β) → String → Option β
  | [], _ => none
  | (k2, v) :: rest, k => if k2 = k then some v else alLookup rest k

/-- Replace the value stored under a key, leaving other entries untouched. -/
def alSet {β : Type} (l : List (String × β)) (k : String) (v : β) : List (String × β) :=
  l.map (fun p => if p.1 = k then (k, v) else p)

/-- `kumoai.LocalTable`: the underlying data frame is abstracted to its column
names with their inferred data types (`dataCols`, mirroring `table._data`),
while `cols` holds the column descriptors currently registered in the table
metadata (`table.columns` / `column in table`). -/
structure LocalTable where
  name : String
  path : String
  dataCols : List (String × Dtype)
  cols : List (String × Column)
  primaryKey : Option String
  timeColumn : Option String
deriving DecidableEq

/-- A foreign-key edge of `kumoai.LocalGraph` (`graph.edges` entries). -/
structure Edge where
  src_table : String
  fkey : String
  dst_table : String
deriving DecidableEq

/-- `kumoai.LocalGraph`: ordered table list plus link list (spec section 3,
Graph Metadata). -/
structure LocalGraph where
  tables : List LocalTable
  edges : List Edge
deriving DecidableEq

def LocalGraph.tableNames (g : LocalGraph) : List String := g.tables.map (fun t => t.name)

def LocalGraph.findTable (g : LocalGraph) (n : String) : Option LocalTable :=
  g.tables.find? (fun t => t.name == n)

/-- Replace every table named `n` by `t2` (tables keep their position). -/
def LocalGraph.updateTable (g : LocalGraph) (n : String) (t2 : LocalTable) : LocalGraph :=
  { g with tables := g.tables.map (fun t => if t.name = n then t2 else t) }

/-- The output of the external loader plus schema inference on one file:
per-column descriptors and the inferred primary-key/time-column choices
(spec section 6, Tabular loader and Schema inference). -/
structure InferredTable where
  cols : List (String × Column)
  primaryKey : Option String
  timeColumn : Option String
deriving DecidableEq

/-- External collaborators used by the graph layer (spec section 6): the
tabular loader combined with schema inference, the semantic-type inference
heuristic for a single column, and the validity check the SDK applies when a
semantic type is assigned to a column of a given data type. -/
structure Ext where
  loadTable : String → Except String InferredTable
  inferStype : Dtype → Stype
  stypeOk : Dtype → Stype → Bool

def LocalTable.hasColumn (t : LocalTable) (c : String) : Bool :=
  (alLookup t.cols c).isSome

/-- Modelled from the spec: `kumoai` `LocalTable.add_column` is not part of
this repository (the source only calls it).  Spec section 4.1: add a column,
computing its inferred type from current data; it fails when the named column
is not a data column. -/
def LocalTable.add_column (ext : Ext) (t : LocalTable) (c : String) : Except String LocalTable :=
  match alLookup t.dataCols c with
  | some dt => .ok { t with cols := t.cols ++ [(c, { dtype := dt, stype := ext.inferStype dt })] }
  | none => .error ("Column " ++ c ++ " does not exist in table " ++ t.name)

/-- Modelled from the spec: `kumoai` column deletion (`del table[column]`),
spec section 4.1 — the descriptor is dropped from the table metadata while the
underlying data column remains. -/
def LocalTable.removeColumn (t : LocalTable) (c : String) : LocalTable :=
  { t with cols := t.cols.filter (fun p => p.1 != c) }

/-- Modelled from the spec: `kumoai` semantic-type assignment
(`table[column].stype = stype`); fails when the SDK considers the semantic
type invalid for the column's data type (spec section 4, and the
`update_graph_metadata` docstring). -/
def LocalTable.setStype (ext : Ext) (t : LocalTable) (c : String) (st : Stype) : Except String LocalTable :=
  match alLookup t.cols c with
  | none => .error ("Column " ++ c ++ " does not exist in table " ++ t.name)
  | some col =>
    if ext.stypeOk col.dtype st then
      .ok { t with cols := alSet t.cols c { col with stype := st } }
    else
      .error ("Invalid semantic type for column " ++ c ++ " in table " ++ t.name)

/-- Modelled from the spec: `kumoai` primary-key assignment; spec section 4.1,
set/clear primary key, failing if the named column does not exist. -/
def LocalTable.setPrimaryKey (t : LocalTable) (v : Option String) : Except String LocalTable :=
  match v with
  | none => .ok { t with primaryKey := none }
  | some c =>
    if (alLookup t.dataCols c).isSome then .ok { t with primaryKey := some c }
    else .error ("Column " ++ c ++ " does not exist in table " ++ t.name)

/-- Modelled from the spec: `kumoai` time-column assignment; spec section 4.1,
set/clear time column, failing if the named column does not exist. -/
def LocalTable.setTimeColumn (t : LocalTable) (v : Option String) : Except String LocalTable :=
  match v with
  | none => .ok { t with timeColumn := none }
  | some c =>
    if (alLookup t.dataCols c).isSome then .ok { t with timeColumn := some c }
    else .error ("Column " ++ c ++ " does not exist in table " ++ t.name)

/-- Modelled from the spec: `kumoai` `LocalGraph.link` (spec section 4.2) —
fails if the source or destination table is unknown, the foreign-key column is
unknown on the source, the destination has no primary key, the foreign key is
the source's own primary key (section 3), or the identical link already
exists; otherwise appends to the link list. -/
def LocalGraph.link (g : LocalGraph) (src k dst : String) : Except String LocalGraph :=
  match g.findTable src with
  | none => .error ("Source table " ++ src ++ " does not exist")
  | some ts =>
    match g.findTable dst with
    | none => .error ("Destination table " ++ dst ++ " does not exist")
    | some td =>
      if (alLookup ts.dataCols k).isNone then
        .error ("Foreign key " ++ k ++ " does not exist in table " ++ src)
      else if td.primaryKey.isNone then
        .error ("Destination table " ++ dst ++ " has no primary key")
      else if ts.primaryKey = some k then
        .error ("Foreign key " ++ k ++ " must not be the primary key of table " ++ src)
      else if Edge.mk src k dst ∈ g.edges then
        .error ("Link " ++ src ++ "." ++ k ++ " -> " ++ dst ++ " already exists")
      else
        .ok { g with edges := g.edges ++ [Edge.mk src k dst] }

/-- Remove the first occurrence of an edge from the link list. -/
def removeEdge : List Edge → Edge → List Edge
  | [], _ => []
  | x :: xs, e => if x = e then xs else x :: removeEdge xs e

/-- Modelled from the spec: `kumoai` `LocalGraph.unlink` (spec section 4.2) —
fails if the exact triple does not exist, otherwise removes it. -/
def LocalGraph.unlink (g : LocalGraph) (src k dst : String) : Except String LocalGraph :=
  if Edge.mk src k dst ∈ g.edges then
    .ok { g with edges := removeEdge g.edges (Edge.mk src k dst) }
  else
    .error ("Link " ++ src ++ "." ++ k ++ " -> " ++ dst ++ " does not exist")

/-- Modelled from the spec: `kumoai` `LocalGraph.remove_table`
(spec section 4.2) — fails if the name does not exist; otherwise removes the
table and cascades, removing every link touching it. -/
def LocalGraph.remove_table (g : LocalGraph) (n : String) : Except String LocalGraph :=
  if n ∈ g.tableNames then
    .ok { tables := g.tables.filter (fun t => t.name != n),
          edges := g.edges.filter (fun e => !(e.src_table == n || e.dst_table == n)) }
  else
    .error ("Table " ++ n ++ " does not exist")

/-- Modelled from the spec: `kumoai` `LocalGraph.add_table`
(spec section 4.2) — fails if the name already exists, otherwise appends. -/
def LocalGraph.add_table (g : LocalGraph) (t : LocalTable) : Except String LocalGraph :=
  if t.name ∈ g.tableNames then
    .error ("Table " ++ t.name ++ " already exists")
  else
    .ok { g with tables := g.tables ++ [t] }

/-- `data_models.LinkMetadata`. -/
structure LinkMetadata where
  source_table : String
  foreign_key : String
  destination_table : String
deriving DecidableEq

/-- `data_models.TableMetadata` (dtypes/stypes as name-keyed lists). -/
structure TableMetadata where
  path : String
  name : String
  dtypes : List (String × Dtype)
  stypes : List (String × Option Stype)
  primary_key : Option String
  time_column : Option String
deriving DecidableEq

/-- `data_models.GraphMetadata`. -/
structure GraphMetadata where
  tables : List TableMetadata
  links : List LinkMetadata
deriving DecidableEq

def Edge.toLink (e : Edge) : LinkMetadata :=
  { source_table := e.src_table, foreign_key := e.fkey, destination_table := e.dst_table }

/-- One table entry of `graph_tools.get_graph_metadata`: every data column is
listed; columns still registered report their descriptor's dtype and stype,
deregistered columns report the inferred dtype and stype `None`. -/
def tableSnapshot (t : LocalTable) : TableMetadata :=
  { path := t.path
    name := t.name
    dtypes := t.dataCols.map (fun p =>
      (p.1, match alLookup t.cols p.1 with
            | some col => col.dtype
            | none => p.2))
    stypes := t.dataCols.map (fun p =>
      (p.1, match alLookup t.cols p.1 with
            | some col => some col.stype
            | none => none))
    primary_key := t.primaryKey
    time_column := t.timeColumn }

/-- `graph_tools.get_graph_metadata`, translated from the source (it reads the
session's graph; we pass the graph directly). -/
def get_graph_metadata (g : LocalGraph) : GraphMetadata :=
  { tables := g.tables.map tableSnapshot
    links := g.edges.map Edge.toLink }

/-- An opaque capability handed back by the external materialize call
(spec section 3, Model Handle): never inspected beyond null-checking. -/
structure ModelHandle where
  id : Nat
deriving DecidableEq

/-- The session object.  The `Session` class itself is absent from the source
snapshot (only its tests and the `__init__.py` declarations remain); its
fields follow the spec (section 3, Session) and `test/test_session.py`.
Python instances store attributes by name and no property definition appears
anywhere under the source, so the two attribute names the tool code uses for
the model — `model` (read by `model_tools.py`, written by `session_tools.py`)
and `_model` (written by `graph_tools.update_graph_metadata`) — are distinct
slots, modelled as two separate fields. -/
structure Session where
  name : String
  initialized : Bool
  graph : LocalGraph
  _model : Option ModelHandle
  model : Option ModelHandle
  api_key : Option String
deriving DecidableEq

/-- `data_models.UpdateTableMetadata` after `model_dump(exclude_unset=True)`:
`stypes` maps column names to a new semantic type or `None` (discard);
`primary_key`/`time_column` are tri-state — omitted (`none`), explicitly
cleared (`some none`), or set (`some (some c)`). -/
structure UpdateTableMetadata where
  stypes : List (String × Option Stype)
  primary_key : Option (Option String)
  time_column : Option (Option String)
deriving DecidableEq

/-- `data_models.UpdateGraphMetadata` (the revision present in the source:
three groups). -/
structure UpdateGraphMetadata where
  tables_to_update : List (String × UpdateTableMetadata)
  links_to_remove : List LinkMetadata
  links_to_add : List LinkMetadata
deriving DecidableEq

/-- One iteration of the `stypes` loop in `graph_tools.update_graph_metadata`:
look the table up (failing like `graph[table_name]` when absent), register the
column if it is not yet registered, then either delete the descriptor
(`stype is None`) or assign the new semantic type. -/
def stypeItemStep (ext : Ext) (g : LocalGraph) (tname : String) (p : String × Option Stype) :
    Except String LocalGraph :=
  match g.findTable tname with
  | none => .error ("Table " ++ tname ++ " does not exist")
  | some t => do
    let t1 ← if t.hasColumn p.1 then pure t else t.add_column ext p.1
    match p.2 with
    | none => pure (g.updateTable tname (t1.removeColumn p.1))
    | some st => do
      let t2 ← t1.setStype ext p.1 st
      pure (g.updateTable tname t2)

def applyStypeList (ext : Ext) (tname : String) :
    LocalGraph → List (String × Option Stype) → Except String LocalGraph
  | g, [] => .ok g
  | g, p :: rest => do
    let g2 ← stypeItemStep ext g tname p
    applyStypeList ext tname g2 rest

/-- The body of one `tables_to_update` entry in
`graph_tools.update_graph_metadata` (the per-table `try` block): the `stypes`
loop, then the `primary_key` assignment when the field was set, then the
`time_column` assignment when the field was set. -/
def applyTableUpdate (ext : Ext) (g : LocalGraph) (tname : String) (u : UpdateTableMetadata) :
    Except String LocalGraph := do
  let g1 ← applyStypeList ext tname g u.stypes
  let g2 ← match u.primary_key with
    | none => pure g1
    | some v =>
      match g1.findTable tname with
      | none => .error ("Table " ++ tname ++ " does not exist")
      | some t => do
        let t2 ← t.setPrimaryKey v
        pure (g1.updateTable tname t2)
  match u.time_column with
  | none => pure g2
  | some v =>
    match g2.findTable tname with
    | none => .error ("Table " ++ tname ++ " does not exist")
    | some t => do
      let t2 ← t.setTimeColumn v
      pure (g2.updateTable tname t2)

/-- Run item applications in order, stopping at the first failure as the
source's `raise ToolError` does; the graph mutated by the earlier, successful
items is kept (the Python session graph is mutated in place). -/
def seqLoop {α : Type} (f : LocalGraph → α → Except String LocalGraph) :
    LocalGraph → List α → LocalGraph × Option String
  | g, [] => (g, none)
  | g, x :: xs =>
    match f g x with
    | .ok g2 => seqLoop f g2 xs
    | .error e => (g, some e)

namespace GraphTools

/-- The three group loops of `graph_tools.update_graph_metadata`, in source
order: per-table field updates, then link removals, then link additions.  The
first failure aborts with the error (the raised `ToolError`), keeping the
mutations applied so far. -/
def updateCore (ext : Ext) (g : LocalGraph) (u : UpdateGraphMetadata) :
    Except String GraphMetadata × LocalGraph :=
  let r1 := seqLoop (fun g p => applyTableUpdate ext g p.1 p.2) g u.tables_to_update
  match r1.2 with
  | some e => (.error e, r1.1)
  | none =>
    let r2 := seqLoop (fun g l => g.unlink l.source_table l.foreign_key l.destination_table)
      r1.1 u.links_to_remove
    match r2.2 with
    | some e => (.error e, r2.1)
    | none =>
      let r3 := seqLoop (fun g l => g.link l.source_table l.foreign_key l.destination_table)
        r2.1 u.links_to_add
      match r3.2 with
      | some e => (.error e, r3.1)
      | none => (.ok (get_graph_metadata r3.1), r3.1)

/-- `graph_tools.update_graph_metadata`, translated from the source: the
session's `_model` attribute is nulled first ("Need to reset the model if
graph changes"), then the groups run; an `.error` result is the `ToolError`
the source raises across the tool boundary. -/
def update_graph_metadata (ext : Ext) (s : Session) (u : UpdateGraphMetadata) :
    Except String GraphMetadata × Session :=
  let s1 := { s with _model := none }
  let r := updateCore ext s1.graph u
  (r.1, { s1 with graph := r.2 })

end GraphTools

/-- The `success`/`message` dictionary every non-metadata tool returns. -/
structure ToolResult where
  success : Bool
  message : String
deriving DecidableEq

namespace GraphTools

/-- `graph_tools.link_tables`, translated from the source. -/
def link_tables (s : Session) (source_table foreign_key destination_table : String) :
    ToolResult × Session :=
  match s.graph.link source_table foreign_key destination_table with
  | .ok g2 =>
    ({ success := true
       message := "Successfully linked " ++ source_table ++ " and " ++ destination_table ++
         " by " ++ foreign_key },
     { s with graph := g2 })
  | .error e =>
    ({ success := false
       message := "Failed to link " ++ source_table ++ " and " ++ destination_table ++
         " by " ++ foreign_key ++ ". " ++ e },
     s)

/-- `graph_tools.unlink_tables`, translated from the source. -/
def unlink_tables (s : Session) (source_table foreign_key destination_table : String) :
    ToolResult × Session :=
  match s.graph.unlink source_table foreign_key destination_table with
  | .ok g2 =>
    ({ success := true
       message := "Successfully unlinked " ++ source_table ++ " and " ++ destination_table ++
         " by " ++ foreign_key },
     { s with graph := g2 })
  | .error e =>
    ({ success := false
       message := "Failed to unlink " ++ source_table ++ " and " ++ destination_table ++
         " by " ++ foreign_key ++ ". " ++ e },
     s)

end GraphTools

namespace TableTools

/-- Build the `rfm.LocalTable(df, name).infer_metadata()` result from the
loader output. -/
def mkLocalTable (path name : String) (it : InferredTable) : LocalTable :=
  { name := name
    path := path
    dataCols := it.cols.map (fun p => (p.1, p.2.dtype))
    cols := it.cols
    primaryKey := it.primaryKey
    timeColumn := it.timeColumn }

/-- `path.endswith(suffix)` on the character list of the string. -/
def strEndsWith (s suffix : String) : Bool :=
  List.isSuffixOf suffix.data s.data

/-- `table_tools.add_table`, translated from the source: extension check, load,
infer, `graph.add_table`; every failure is caught into a `success=False`
dictionary.  Note the source never touches the session's model attributes. -/
def add_table (ext : Ext) (s : Session) (path name : String) : ToolResult × Session :=
  if !(strEndsWith path ".csv" || strEndsWith path ".parquet") then
    ({ success := false
       message := "Can not read file from path " ++ path ++
         ". Only csv or parquet files are supported" }, s)
  else
    match ext.loadTable path with
    | .error e =>
      ({ success := false
         message := "Could not load data source from " ++ path ++ ". " ++ e }, s)
    | .ok it =>
      match s.graph.add_table (mkLocalTable path name it) with
      | .ok g2 =>
        ({ success := true
           message := "Table with name " ++ name ++ " added successfully" },
         { s with graph := g2 })
      | .error e =>
        ({ success := false
           message := "Failed to register table with name " ++ name ++ ". " ++ e }, s)

/-- `table_tools.remove_table`, translated from the source. -/
def remove_table (s : Session) (name : String) : ToolResult × Session :=
  match s.graph.remove_table name with
  | .ok g2 =>
    ({ success := true
       message := "Table with name " ++ name ++ " removed successfully" },
     { s with graph := g2 })
  | .error e =>
    ({ success := false
       message := "Failed to remove table with name " ++ name ++ ". " ++ e }, s)

end TableTools

/-- An opaque parsed timestamp (the result of `pd.Timestamp(...)`). -/
structure Timestamp where
  val : Nat
deriving DecidableEq

/-- The anchor-time value actually handed to the model: `None`, a string the
source passes through unconverted (the empty string is falsy in Python, and
the literal `"entity"` is kept), or a parsed timestamp. -/
inductive AnchorVal
  | nullA
  | raw (s : String)
  | ts (t : Timestamp)
deriving DecidableEq

/-- The anchor-time conversion at the top of `model_tools.predict` and
`model_tools.evaluate`: `if anchor_time and anchor_time != "entity": try
pd.Timestamp(anchor_time) except ValueError: return failure`. -/
def convertAnchor (parseTs : String → Option Timestamp) (a : Option String) :
    Except String AnchorVal :=
  match a with
  | none => .ok .nullA
  | some str =>
    if str = "" then .ok (.raw "")
    else if str = "entity" then .ok (.raw "entity")
    else
      match parseTs str with
      | some t => .ok (.ts t)
      | none => .error ("Invalid anchor_time format: " ++ str ++
          ". Use YYYY-MM-DD format or entity")

/-- The argument record `model_tools.predict` forwards to
`session.model.predict`. -/
structure PredictArgs where
  query : String
  anchor : AnchorVal
  run_mode : String
  num_neighbors : Option (List Nat)
  max_pq_iterations : Nat
deriving DecidableEq

/-- The argument record `model_tools.evaluate` forwards to
`session.model.evaluate`. -/
structure EvalArgs where
  query : String
  anchor : AnchorVal
  run_mode : String
  num_neighbors : Option (List Nat)
  max_pq_iterations : Nat
  random_seed : Option Nat
deriving DecidableEq

/-- A tool result that may carry a data payload (the `data` key of the
returned dictionary). -/
structure ToolResponse (α : Type) where
  success : Bool
  message : String
  data : Option α
deriving DecidableEq

/-- Pack the predict arguments in the order the source forwards them. -/
def mkPredictArgs (query : String) (av : AnchorVal) (run_mode : String)
    (num_neighbors : Option (List Nat)) (max_pq_iterations : Nat) : PredictArgs :=
  { query := query, anchor := av, run_mode := run_mode,
    num_neighbors := num_neighbors, max_pq_iterations := max_pq_iterations }

/-- Pack the evaluate arguments in the order the source forwards them. -/
def mkEvalArgs (query : String) (av : AnchorVal) (run_mode : String)
    (num_neighbors : Option (List Nat)) (max_pq_iterations : Nat)
    (random_seed : Option Nat) : EvalArgs :=
  { query := query, anchor := av, run_mode := run_mode,
    num_neighbors := num_neighbors, max_pq_iterations := max_pq_iterations,
    random_seed := random_seed }

namespace ModelTools

/-- `model_tools.predict`, translated from the source; the external inference
call `session.model.predict(...)` is the `oracle` argument and its tabular
result is returned unmodified in the `data` payload. -/
def predict {α : Type} (oracle : ModelHandle → PredictArgs → α)
    (parseTs : String → Option Timestamp) (s : Session) (query : String)
    (anchor_time : Option String) (run_mode : String)
    (num_neighbors : Option (List Nat)) (max_pq_iterations : Nat) : ToolResponse α :=
  match s.model with
  | none =>
    { success := false
      message := "No model available. Please call finalize_graph first"
      data := none }
  | some m =>
    match convertAnchor parseTs anchor_time with
    | .error msg => { success := false, message := msg, data := none }
    | .ok av =>
      { success := true
        message := "Prediction completed successfully"
        data := some (oracle m (mkPredictArgs query av run_mode num_neighbors max_pq_iterations)) }

/-- `model_tools.evaluate`, translated from the source. -/
def evaluate {α : Type} (oracle : ModelHandle → EvalArgs → α)
    (parseTs : String → Option Timestamp) (s : Session) (query : String)
    (anchor_time : Option String) (run_mode : String)
    (num_neighbors : Option (List Nat)) (max_pq_iterations : Nat)
    (random_seed : Option Nat) : ToolResponse α :=
  match s.model with
  | none =>
    { success := false
      message := "No model available. Please call finalize_graph first"
      data := none }
  | some m =>
    match convertAnchor parseTs anchor_time with
    | .error msg => { success := false, message := msg, data := none }
    | .ok av =>
      { success := true
        message := "Evaluation completed successfully"
        data := some (oracle m
          (mkEvalArgs query av run_mode num_neighbors max_pq_iterations random_seed)) }

/-- `model_tools.validate_query`, translated from the source; the external
`session.model._parse_query(query)` is the `parseOracle` argument. -/
def validate_query (parseOracle : ModelHandle → String → Except String Unit)
    (s : Session) (query : String) : ToolResult :=
  match s.model with
  | none =>
    { success := false
      message := "No model available. Please call finalize_graph first" }
  | some m =>
    match parseOracle m query with
    | .ok _ => { success := true, message := "Query validated successfully" }
    | .error e => { success := false, message := "Query validation failed. " ++ e }

end ModelTools

/-- Modelled from the spec: `Session.initialize` of the repository's
`session.py` is absent from the source snapshot (only `test/test_session.py`
and the `__init__.py` declarations remain).  Spec section 4.4: the
`uninitialized → initialized` transition requires a credential from the
process environment and fails permanently (raises) if absent; it is
idempotent once initialized.  `env` is the `KUMO_API_KEY` value, `auth` the
external `kumo.init` authentication call; the returned session is the
post-call state (unchanged when the call raises). -/
def Session.initializeSession (env : Option String) (auth : String → Except String Unit)
    (s : Session) : Except String Unit × Session :=
  if s.initialized then (.ok (), s)
  else
    match env with
    | none => (.error "Missing required environment variable KUMO_API_KEY", s)
    | some key =>
      match auth key with
      | .ok _ => (.ok (), { s with initialized := true, api_key := some key })
      | .error e => (.error e, s)

namespace Engine

/-- Modelled from the spec: `AddTableMetadata` of the current `data_models.py`
(declared in `__init__.py` and exercised by `test/tools/test_graph.py` but
absent from the source snapshot). -/
structure AddTableMetadata where
  path : String
  name : String
  primary_key : Option String
  time_column : Option String
deriving DecidableEq

/-- Modelled from the spec: the five-group `UpdateGraphMetadata` accepted by
the batch metadata update engine of `tools/graph.py` (spec section 4.3),
absent from the source snapshot. -/
structure Update where
  tables_to_add : List AddTableMetadata
  tables_to_update : List (String × UpdateTableMetadata)
  links_to_remove : List LinkMetadata
  links_to_add : List LinkMetadata
  tables_to_remove : List String
deriving DecidableEq

/-- Modelled from the spec: adding one table in the engine (spec section 4.2,
`add_table`): load/infer through the external loader, default to no
primary key or time column (section 4.1), apply the explicit overrides when
given, and append to the table list; error entries are keyed by the
offending table name. -/
def applyAdd (ext : Ext) (g : LocalGraph) (a : AddTableMetadata) : Except String LocalGraph :=
  match ext.loadTable a.path with
  | .error e => .error (a.name ++ ": " ++ e)
  | .ok it => do
    let t0 : LocalTable :=
      { name := a.name, path := a.path,
        dataCols := it.cols.map (fun p => (p.1, p.2.dtype)),
        cols := it.cols, primaryKey := none, timeColumn := none }
    let t1 ← t0.setPrimaryKey a.primary_key
    let t2 ← t1.setTimeColumn a.time_column
    g.add_table t2

/-- One batch item of the metadata update engine, in its five kinds. -/
inductive Item
  | addTable (a : AddTableMetadata)
  | updateTable (name : String) (u : UpdateTableMetadata)
  | removeLink (l : LinkMetadata)
  | addLink (l : LinkMetadata)
  | removeTable (name : String)
deriving DecidableEq

/-- Apply a single batch item to the graph. -/
def applyItem (ext : Ext) (g : LocalGraph) : Item → Except String LocalGraph
  | .addTable a => applyAdd ext g a
  | .updateTable n u => applyTableUpdate ext g n u
  | .removeLink l => g.unlink l.source_table l.foreign_key l.destination_table
  | .addLink l => g.link l.source_table l.foreign_key l.destination_table
  | .removeTable n => g.remove_table n

/-- Best-effort sequential run over batch items (spec section 4.3): each item
is attempted independently; a failing item leaves the graph untouched and its
error message is recorded, and processing continues. -/
def runItems (ext : Ext) : LocalGraph → List Item → LocalGraph × List String
  | g, [] => (g, [])
  | g, it :: rest =>
    match applyItem ext g it with
    | .ok g2 => runItems ext g2 rest
    | .error e =>
      let r := runItems ext g rest
      (r.1, e :: r.2)

/-- Modelled from the spec: the table-addition loop of the engine. -/
def runAdds (ext : Ext) : LocalGraph → List AddTableMetadata → LocalGraph × List String
  | g, [] => (g, [])
  | g, a :: rest =>
    match applyAdd ext g a with
    | .ok g2 => runAdds ext g2 rest
    | .error e =>
      let r := runAdds ext g rest
      (r.1, e :: r.2)

/-- Modelled from the spec: the per-table field-update loop of the engine. -/
def runUpdates (ext : Ext) :
    LocalGraph → List (String × UpdateTableMetadata) → LocalGraph × List String
  | g, [] => (g, [])
  | g, p :: rest =>
    match applyTableUpdate ext g p.1 p.2 with
    | .ok g2 => runUpdates ext g2 rest
    | .error e =>
      let r := runUpdates ext g rest
      (r.1, e :: r.2)

/-- Modelled from the spec: the link-removal loop of the engine. -/
def runLinkRemovals : LocalGraph → List LinkMetadata → LocalGraph × List String
  | g, [] => (g, [])
  | g, l :: rest =>
    match g.unlink l.source_table l.foreign_key l.destination_table with
    | .ok g2 => runLinkRemovals g2 rest
    | .error e =>
      let r := runLinkRemovals g rest
      (r.1, e :: r.2)

/-- Modelled from the spec: the link-addition loop of the engine. -/
def runLinkAdds : LocalGraph → List LinkMetadata → LocalGraph × List String
  | g, [] => (g, [])
  | g, l :: rest =>
    match g.link l.source_table l.foreign_key l.destination_table with
    | .ok g2 => runLinkAdds g2 rest
    | .error e =>
      let r := runLinkAdds g rest
      (r.1, e :: r.2)

/-- Modelled from the spec: the table-removal loop of the engine. -/
def runTableRemovals : LocalGraph → List String → LocalGraph × List String
  | g, [] => (g, [])
  | g, n :: rest =>
    match g.remove_table n with
    | .ok g2 => runTableRemovals g2 rest
    | .error e =>
      let r := runTableRemovals g rest
      (r.1, e :: r.2)

/-- Modelled from the spec: the batch metadata update engine of
`tools/graph.py` (spec section 4.3) — the five group loops run in the fixed
order adds, per-table field updates, link removals, link additions, table
removals, accumulating per-item errors without aborting. -/
def applyUpdate (ext : Ext) (g : LocalGraph) (u : Update) : LocalGraph × List String :=
  let r1 := runAdds ext g u.tables_to_add
  let r2 := runUpdates ext r1.1 u.tables_to_update
  let r3 := runLinkRemovals r2.1 u.links_to_remove
  let r4 := runLinkAdds r3.1 u.links_to_add
  let r5 := runTableRemovals r4.1 u.tables_to_remove
  (r5.1, r1.2 ++ (r2.2 ++ (r3.2 ++ (r4.2 ++ r5.2))))

/-- The batch flattened into one item list in the engine's group order. -/
def flatten (u : Update) : List Item :=
  u.tables_to_add.map Item.addTable ++
  u.tables_to_update.map (fun p => Item.updateTable p.1 p.2) ++
  u.links_to_remove.map Item.removeLink ++
  u.links_to_add.map Item.addLink ++
  u.tables_to_remove.map Item.removeTable

/-- Modelled from the spec: the `update_graph_metadata` tool of
`tools/graph.py` (absent from the source snapshot; `test/tools/test_graph.py`
pins its shape): the session's stored model reference is reset, the batch is
applied best-effort, and the final graph snapshot is returned together with
the error list (the `UpdatedGraphMetadata` payload). -/
def update_graph_metadata (ext : Ext) (s : Session) (u : Update) :
    (GraphMetadata × List String) × Session :=
  let s1 := { s with _model := none }
  let r := applyUpdate ext s1.graph u
  ((get_graph_metadata r.1, r.2), { s1 with graph := r.1 })

end Engine

/-! ### Helper lemmas -/

theorem append_ne_empty_left (a b : String) (h : a ≠ "") : a ++ b ≠ "" := by
  intro hc
  apply h
  have hd := congrArg String.data hc
  rw [String.data_append] at hd
  have hnil : a.data = [] := (List.append_eq_nil.mp hd).1
  cases a
  cases hnil
  rfl

theorem removeEdge_append_not_mem (l : List Edge) (e : Edge) (h : e ∉ l) :
    removeEdge (l ++ [e]) e = l := by
  induction l with
  | nil => simp [removeEdge]
  | cons x xs ih =>
    simp only [List.cons_append, removeEdge]
    have hx : ¬ (x = e) := by
      intro hc
      exact h (hc ▸ List.mem_cons_self x xs)
    rw [if_neg hx]
    simp only [List.append_eq]
    rw [ih (fun hm => h (List.mem_cons_of_mem x hm))]

theorem alLookup_map_keys {β γ : Type} (f : String → β → γ) (l : List (String × β)) (k : String) :
    alLookup (l.map (fun p => (p.1, f p.1 p.2))) k = (alLookup l k).map (f k) := by
  induction l with
  | nil => simp [alLookup]
  | cons p rest ih =>
    simp only [List.map_cons, alLookup]
    by_cases hk : p.1 = k
    · subst hk
      simp
    · simp [hk, ih]

theorem alLookup_filter_ne {β : Type} (l : List (String × β)) (c : String) :
    alLookup (l.filter (fun p => p.1 != c)) c = none := by
  induction l with
  | nil => simp [alLookup]
  | cons p rest ih =>
    by_cases hp : p.1 = c
    · simp [List.filter, hp, ih]
    · have : (p.1 != c) = true := by simp [hp]
      simp [List.filter, this, alLookup, hp, ih]

namespace Engine

theorem runItems_append (ext : Ext) (g : LocalGraph) (l1 l2 : List Item) :
    runItems ext g (l1 ++ l2) =
      ((runItems ext (runItems ext g l1).1 l2).1,
       (runItems ext g l1).2 ++ (runItems ext (runItems ext g l1).1 l2).2) := by
  induction l1 generalizing g with
  | nil => simp [runItems]
  | cons it rest ih =>
    simp only [List.cons_append, runItems]
    cases h : applyItem ext g it with
    | ok g2 => simp [h, ih]
    | error e => simp [h, ih]

theorem runAdds_eq (ext : Ext) (g : LocalGraph) (l : List AddTableMetadata) :
    runAdds ext g l = runItems ext g (l.map Item.addTable) := by
  induction l generalizing g with
  | nil => simp [runAdds, runItems]
  | cons a rest ih =>
    simp only [List.map_cons, runAdds, runItems, applyItem]
    cases h : applyAdd ext g a with
    | ok g2 => simp [h, ih]
    | error e => simp [h, ih]

theorem runUpdates_eq (ext : Ext) (g : LocalGraph) (l : List (String × UpdateTableMetadata)) :
    runUpdates ext g l = runItems ext g (l.map (fun p => Item.updateTable p.1 p.2)) := by
  induction l generalizing g with
  | nil => simp [runUpdates, runItems]
  | cons p rest ih =>
    simp only [List.map_cons, runUpdates, runItems, applyItem]
    cases h : applyTableUpdate ext g p.1 p.2 with
    | ok g2 => simp [h, ih]
    | error e => simp [h, ih]

theorem runLinkRemovals_eq (ext : Ext) (g : LocalGraph) (l : List LinkMetadata) :
    runLinkRemovals g l = runItems ext g (l.map Item.removeLink) := by
  induction l generalizing g with
  | nil => simp [runLinkRemovals, runItems]
  | cons p rest ih =>
    simp only [List.map_cons, runLinkRemovals, runItems, applyItem]
    cases h : g.unlink p.source_table p.foreign_key p.destination_table with
    | ok g2 => simp [h, ih]
    | error e => simp [h, ih]

theorem runLinkAdds_eq (ext : Ext) (g : LocalGraph) (l : List LinkMetadata) :
    runLinkAdds g l = runItems ext g (l.map Item.addLink) := by
  induction l generalizing g with
  | nil => simp [runLinkAdds, runItems]
  | cons p rest ih =>
    simp only [List.map_cons, runLinkAdds, runItems, applyItem]
    cases h : g.link p.source_table p.foreign_key p.destination_table with
    | ok g2 => simp [h, ih]
    | error e => simp [h, ih]

theorem runTableRemovals_eq (ext : Ext) (g : LocalGraph) (l : List String) :
    runTableRemovals g l = runItems ext g (l.map Item.removeTable) := by
  induction l generalizing g with
  | nil => simp [runTableRemovals, runItems]
  | cons p rest ih =>
    simp only [List.map_cons, runTableRemovals, runItems, applyItem]
    cases h : g.remove_table p with
    | ok g2 => simp [h, ih]
    | error e => simp [h, ih]

theorem applyUpdate_eq_runItems (ext : Ext) (g : LocalGraph) (u : Update) :
    applyUpdate ext g u = runItems ext g (flatten u) := by
  simp only [flatten, List.append_assoc, runItems_append, applyUpdate,
    runAdds_eq ext, runUpdates_eq ext, runLinkRemovals_eq ext, runLinkAdds_eq ext,
    runTableRemovals_eq ext]

end Engine

/-! ### Concrete fixtures (mirroring the repository's test data: `USERS`,
`ORDERS`, `STORES`) used by witnesses and counterexamples. -/

def colID : Column := { dtype := Dtype.int, stype := Stype.ID }

def colNum : Column := { dtype := Dtype.float, stype := Stype.numerical }

def colTs : Column := { dtype := Dtype.timestamp, stype := Stype.timestamp }

def usersT : LocalTable :=
  { name := "USERS", path := "USERS.csv",
    dataCols := [("USER_ID", Dtype.int), ("AGE", Dtype.float)],
    cols := [("USER_ID", colID), ("AGE", colNum)],
    primaryKey := some "USER_ID", timeColumn := none }

def ordersT : LocalTable :=
  { name := "ORDERS", path := "ORDERS.parquet",
    dataCols := [("ORDER_ID", Dtype.int), ("USER_ID", Dtype.int),
      ("STORE_ID", Dtype.int), ("TIME", Dtype.timestamp)],
    cols := [("ORDER_ID", colID), ("USER_ID", colID), ("STORE_ID", colID), ("TIME", colTs)],
    primaryKey := some "ORDER_ID", timeColumn := some "TIME" }

def baseGraph : LocalGraph := { tables := [usersT, ordersT], edges := [] }

def storesInf : InferredTable :=
  { cols := [("STORE_ID", colID), ("CAT", { dtype := Dtype.string, stype := Stype.text })],
    primaryKey := some "STORE_ID", timeColumn := none }

def extFix : Ext :=
  { loadTable := fun p =>
      if p = "STORES.csv" then .ok storesInf else .error ("Could not load " ++ p)
    inferStype := fun dt =>
      match dt with
      | Dtype.int => Stype.numerical
      | Dtype.float => Stype.numerical
      | Dtype.string => Stype.text
      | Dtype.bool => Stype.categorical
      | Dtype.date => Stype.timestamp
      | Dtype.timestamp => Stype.timestamp
      | Dtype.unsupported => Stype.text
    stypeOk := fun _ _ => true }

def sessW : Session :=
  { name := "default", initialized := true, graph := baseGraph,
    _model := some { id := 1 }, model := some { id := 1 }, api_key := some "key" }

/-- A batch whose link addition references the table added in the same batch. -/
def addStores : Engine.AddTableMetadata :=
  { path := "STORES.csv", name := "STORES", primary_key := some "STORE_ID", time_column := none }

def storesLink : LinkMetadata :=
  { source_table := "ORDERS", foreign_key := "STORE_ID", destination_table := "STORES" }

def sameBatchU : Engine.Update :=
  { tables_to_add := [addStores]
    tables_to_update := []
    links_to_remove := []
    links_to_add := [storesLink]
    tables_to_remove := [] }

/-- A valid per-table update item on the fixture graph. -/
def uAge : UpdateTableMetadata :=
  { stypes := [("AGE", some Stype.categorical)], primary_key := none, time_column := none }

/-- A link addition whose destination table does not exist. -/
def badLink : LinkMetadata :=
  { source_table := "ORDERS", foreign_key := "USER_ID", destination_table := "NOPE" }

/-- N = 2 batch: one valid per-table update, one invalid link addition. -/
def uW : Engine.Update :=
  { tables_to_add := [], tables_to_update := [("USERS", uAge)], links_to_remove := [],
    links_to_add := [badLink], tables_to_remove := [] }

def xsW : List Engine.Item := [Engine.Item.updateTable "USERS" uAge]

def yW : Engine.Item := Engine.Item.addLink badLink

/-! ### Claim theorems -/

/-- C7: the metadata update engine processes the batch groups in the fixed
order — table additions, then per-table field updates, then link removals,
then link additions, then table removals (the engine equals the sequential
item run over the batch flattened in exactly this group order) — so that a
link addition in a batch may reference a table added earlier in the same
batch, as the concrete batch `sameBatchU` demonstrates (no errors, and the
link to the freshly added table is present). -/
theorem update_groups_fixed_order :
    (∀ (ext : Ext) (g : LocalGraph) (u : Engine.Update),
      Engine.applyUpdate ext g u = Engine.runItems ext g (Engine.flatten u)) ∧
    (Engine.applyUpdate extFix baseGraph sameBatchU).2 = [] ∧
    Edge.mk "ORDERS" "STORE_ID" "STORES" ∈ (Engine.applyUpdate extFix baseGraph sameBatchU).1.edges :=
  ⟨Engine.applyUpdate_eq_runItems, by decide, by decide⟩

/-- C1: a batch whose flattened item sequence contains exactly one invalid
item (all items before it succeed, the item itself fails with message `e`,
and all items after it succeed on the unchanged intermediate graph) is not
aborted by the metadata update engine: the returned error list is exactly
`[e]`, and the returned snapshot is the graph obtained by applying all the
other items. -/
theorem single_invalid_item_best_effort (ext : Ext) (s : Session) (u : Engine.Update)
    (xs zs : List Engine.Item) (y : Engine.Item) (e : String)
    (hsplit : Engine.flatten u = xs ++ y :: zs)
    (hxs : (Engine.runItems ext s.graph xs).2 = [])
    (hy : Engine.applyItem ext (Engine.runItems ext s.graph xs).1 y = .error e)
    (hzs : (Engine.runItems ext (Engine.runItems ext s.graph xs).1 zs).2 = []) :
    (Engine.update_graph_metadata ext s u).1.2 = [e] ∧
    (Engine.update_graph_metadata ext s u).1.1 =
      get_graph_metadata (Engine.runItems ext s.graph (xs ++ zs)).1 := by
  have hcons : Engine.runItems ext (Engine.runItems ext s.graph xs).1 (y :: zs) =
      ((Engine.runItems ext (Engine.runItems ext s.graph xs).1 zs).1,
       e :: (Engine.runItems ext (Engine.runItems ext s.graph xs).1 zs).2) := by
    simp [Engine.runItems, hy]
  have hrun : Engine.applyUpdate ext s.graph u =
      ((Engine.runItems ext (Engine.runItems ext s.graph xs).1 zs).1, [e]) := by
    rw [Engine.applyUpdate_eq_runItems, hsplit, Engine.runItems_append, hcons]
    simp [hxs, hzs]
  have happ : (Engine.runItems ext s.graph (xs ++ zs)).1 =
      (Engine.runItems ext (Engine.runItems ext s.graph xs).1 zs).1 := by
    rw [Engine.runItems_append]
  constructor
  · show (Engine.applyUpdate ext s.graph u).2 = [e]
    rw [hrun]
  · show get_graph_metadata (Engine.applyUpdate ext s.graph u).1 =
      get_graph_metadata (Engine.runItems ext s.graph (xs ++ zs)).1
    rw [hrun, happ]

/-- Witness for C1 at the concrete batch `uW` (two items, the link addition
invalid): one error entry naming the offending table, the other item applied. -/
theorem single_invalid_item_best_effort_witness :
    (Engine.update_graph_metadata extFix sessW uW).1.2 =
      ["Destination table NOPE does not exist"] ∧
    (Engine.update_graph_metadata extFix sessW uW).1.1 =
      get_graph_metadata (Engine.runItems extFix sessW.graph (xsW ++ [])).1 :=
  single_invalid_item_best_effort extFix sessW uW xsW [] yW
    "Destination table NOPE does not exist" (by decide) (by decide) rfl (by decide)

/-- C10: `graph_tools.update_graph_metadata` sets the session attribute
`_model` to `None` unconditionally before any batch item is processed — in
particular also for an empty payload and when an item fails and the call
raises — while the attribute `model`, the one `model_tools.predict`,
`model_tools.evaluate` and `model_tools.validate_query` read, is left
untouched, so the behaviour of those readers is unchanged by the update. -/
theorem update_resets_underscore_model_only (ext : Ext) (s : Session) (u : UpdateGraphMetadata) :
    ((GraphTools.update_graph_metadata ext s u).2)._model = none ∧
    ((GraphTools.update_graph_metadata ext s u).2).model = s.model ∧
    (∀ (po : ModelHandle → String → Except String Unit) (q : String),
      ModelTools.validate_query po ((GraphTools.update_graph_metadata ext s u).2) q =
        ModelTools.validate_query po s q) :=
  ⟨rfl, rfl, fun _ _ => rfl⟩

def sessU : Session :=
  { name := "default", initialized := false, graph := baseGraph,
    _model := none, model := none, api_key := none }

def authOk : String → Except String Unit := fun _ => .ok ()

/-- C3: when the process environment provides no credential (`KUMO_API_KEY`
absent), the uninitialized-to-initialized transition fails with the fatal
missing-credential error and the session remains uninitialized — it does not
silently continue. -/
theorem initialize_missing_credential (auth : String → Except String Unit) (s : Session)
    (h : s.initialized = false) :
    (Session.initializeSession none auth s).1 =
      .error "Missing required environment variable KUMO_API_KEY" ∧
    (Session.initializeSession none auth s).2 = s ∧
    ((Session.initializeSession none auth s).2).initialized = false := by
  simp [Session.initializeSession, h]

/-- Witness for C3 on a concrete uninitialized session. -/
theorem initialize_missing_credential_witness :
    (Session.initializeSession none authOk sessU).1 =
      .error "Missing required environment variable KUMO_API_KEY" ∧
    (Session.initializeSession none authOk sessU).2 = sessU ∧
    ((Session.initializeSession none authOk sessU).2).initialized = false :=
  initialize_missing_credential authOk sessU rfl

/-- C2 (code bug): on a session whose Model Handle is present,
`table_tools.add_table` succeeds, the snapshot afterwards contains the new
table with the loader's inferred schema — but the handle is NOT invalidated:
both the `model` and the `_model` attributes still hold the old handle,
contradicting the staleness rule of the spec and of the code's own comment
("Need to reset the model if graph changes"). -/
theorem add_table_keeps_model_handle :
    (TableTools.add_table extFix sessW "STORES.csv" "STORES").1.success = true ∧
    ((TableTools.add_table extFix sessW "STORES.csv" "STORES").2).model = some { id := 1 } ∧
    ((TableTools.add_table extFix sessW "STORES.csv" "STORES").2)._model = some { id := 1 } ∧
    tableSnapshot (TableTools.mkLocalTable "STORES.csv" "STORES" storesInf) ∈
      (get_graph_metadata ((TableTools.add_table extFix sessW "STORES.csv" "STORES").2).graph).tables := by
  refine ⟨by decide, by decide, by decide, by decide⟩

/-- C4: `model_tools.predict`, `model_tools.evaluate` and
`model_tools.validate_query` each fail with the not-materialized condition —
a fixed failure record independent of the external service oracles, so the
service is not contacted — when the session's Model Handle is absent; when it
is present, the query string and options are forwarded opaquely to the
service and the opaque result is returned unmodified in the payload. -/
theorem model_tools_require_model_handle {α β : Type}
    (oracle : ModelHandle → PredictArgs → α) (eoracle : ModelHandle → EvalArgs → β)
    (parseTs : String → Option Timestamp) (po : ModelHandle → String → Except String Unit)
    (s : Session) (q : String) (a : Option String) (rm : String)
    (nn : Option (List Nat)) (mpi : Nat) (seed : Option Nat) :
    (s.model = none →
      ModelTools.predict oracle parseTs s q a rm nn mpi =
        { success := false
          message := "No model available. Please call finalize_graph first"
          data := none } ∧
      ModelTools.evaluate eoracle parseTs s q a rm nn mpi seed =
        { success := false
          message := "No model available. Please call finalize_graph first"
          data := none } ∧
      ModelTools.validate_query po s q =
        { success := false
          message := "No model available. Please call finalize_graph first" }) ∧
    (∀ (m : ModelHandle) (av : AnchorVal), s.model = some m →
      convertAnchor parseTs a = .ok av →
      ModelTools.predict oracle parseTs s q a rm nn mpi =
        { success := true
          message := "Prediction completed successfully"
          data := some (oracle m (mkPredictArgs q av rm nn mpi)) } ∧
      ModelTools.evaluate eoracle parseTs s q a rm nn mpi seed =
        { success := true
          message := "Evaluation completed successfully"
          data := some (eoracle m (mkEvalArgs q av rm nn mpi seed)) }) ∧
    (∀ (m : ModelHandle), s.model = some m →
      (po m q = .ok () →
        ModelTools.validate_query po s q =
          { success := true, message := "Query validated successfully" }) ∧
      (∀ e, po m q = .error e →
        ModelTools.validate_query po s q =
          { success := false, message := "Query validation failed. " ++ e })) := by
  refine ⟨?_, ?_, ?_⟩
  · intro h
    exact ⟨by simp [ModelTools.predict, h], by simp [ModelTools.evaluate, h],
      by simp [ModelTools.validate_query, h]⟩
  · intro m av hm hc
    exact ⟨by simp [ModelTools.predict, hm, hc], by simp [ModelTools.evaluate, hm, hc]⟩
  · intro m hm
    constructor
    · intro hp
      simp [ModelTools.validate_query, hm, hp]
    · intro e hp
      simp [ModelTools.validate_query, hm, hp]

def predOracleW : ModelHandle → PredictArgs → Nat := fun m args => m.id + args.query.length

def evalOracleW : ModelHandle → EvalArgs → Nat := fun m args => m.id + args.max_pq_iterations

def parseTsW : String → Option Timestamp := fun _ => some { val := 7 }

def parseQueryW : ModelHandle → String → Except String Unit := fun _ _ => .ok ()

/-- Witness for C4: a model-absent session yields the fixed failure record,
and a model-present session returns the oracle result unmodified. -/
theorem model_tools_require_model_handle_witness :
    ModelTools.predict predOracleW parseTsW sessU "PREDICT X" none "fast" none 20 =
      { success := false
        message := "No model available. Please call finalize_graph first"
        data := none } ∧
    ModelTools.predict predOracleW parseTsW sessW "PREDICT X" none "fast" none 20 =
      { success := true
        message := "Prediction completed successfully"
        data := some (predOracleW { id := 1 }
          (mkPredictArgs "PREDICT X" AnchorVal.nullA "fast" none 20)) } :=
  ⟨((model_tools_require_model_handle predOracleW evalOracleW parseTsW parseQueryW sessU
      "PREDICT X" none "fast" none 20 none).1 rfl).1,
   (((model_tools_require_model_handle predOracleW evalOracleW parseTsW parseQueryW sessW
      "PREDICT X" none "fast" none 20 none).2).1 { id := 1 } AnchorVal.nullA rfl rfl).1⟩

theorem link_ok_shape (g : LocalGraph) (src k dst : String) (g2 : LocalGraph)
    (h : g.link src k dst = .ok g2) :
    Edge.mk src k dst ∉ g.edges ∧
    g2 = { g with edges := g.edges ++ [Edge.mk src k dst] } := by
  unfold LocalGraph.link at h
  split at h
  · exact Except.noConfusion h
  rename_i ts hs
  split at h
  · exact Except.noConfusion h
  rename_i td hd
  by_cases c1 : (alLookup ts.dataCols k).isNone = true
  · rw [if_pos c1] at h
    exact Except.noConfusion h
  rw [if_neg c1] at h
  by_cases c2 : td.primaryKey.isNone = true
  · rw [if_pos c2] at h
    exact Except.noConfusion h
  rw [if_neg c2] at h
  by_cases c3 : ts.primaryKey = some k
  · rw [if_pos c3] at h
    exact Except.noConfusion h
  rw [if_neg c3] at h
  by_cases c4 : Edge.mk src k dst ∈ g.edges
  · rw [if_pos c4] at h
    exact Except.noConfusion h
  rw [if_neg c4] at h
  exact ⟨c4, ((Except.ok.injEq _ _).mp h).symm⟩

theorem unlink_after_link (g : LocalGraph) (e : Edge) (h : e ∉ g.edges) :
    LocalGraph.unlink { g with edges := g.edges ++ [e] } e.src_table e.fkey e.dst_table =
      .ok g := by
  obtain ⟨ea, eb, ec⟩ := e
  unfold LocalGraph.unlink
  have hm : Edge.mk ea eb ec ∈ g.edges ++ [Edge.mk ea eb ec] := by simp
  rw [if_pos hm, removeEdge_append_not_mem g.edges (Edge.mk ea eb ec) h]

/-- C8: when `link_tables(s, k, d)` succeeds, immediately calling
`unlink_tables(s, k, d)` succeeds and restores the session — in particular
the link list — to exactly its state before the link call. -/
theorem link_unlink_round_trip (s : Session) (src k dst : String)
    (h : (GraphTools.link_tables s src k dst).1.success = true) :
    (GraphTools.unlink_tables (GraphTools.link_tables s src k dst).2 src k dst).1.success
      = true ∧
    (GraphTools.unlink_tables (GraphTools.link_tables s src k dst).2 src k dst).2 = s := by
  cases hl : s.graph.link src k dst with
  | error e =>
    exfalso
    have hfalse : (GraphTools.link_tables s src k dst).1.success = false := by
      simp [GraphTools.link_tables, hl]
    rw [hfalse] at h
    exact Bool.false_ne_true h
  | ok g2 =>
    obtain ⟨hnot, rfl⟩ := link_ok_shape s.graph src k dst g2 hl
    have hLT : (GraphTools.link_tables s src k dst).2 =
        { s with graph := { s.graph with edges := s.graph.edges ++ [Edge.mk src k dst] } } := by
      simp [GraphTools.link_tables, hl]
    have hu : LocalGraph.unlink
        { s.graph with edges := s.graph.edges ++ [Edge.mk src k dst] } src k dst = .ok s.graph :=
      unlink_after_link s.graph (Edge.mk src k dst) hnot
    rw [hLT]
    constructor
    · simp [GraphTools.unlink_tables, hu]
    · simp [GraphTools.unlink_tables, hu]

/-- Witness for C8 at a concrete link on the fixture graph. -/
theorem link_unlink_round_trip_witness :
    (GraphTools.unlink_tables (GraphTools.link_tables sessW "ORDERS" "USER_ID" "USERS").2
      "ORDERS" "USER_ID" "USERS").1.success = true ∧
    (GraphTools.unlink_tables (GraphTools.link_tables sessW "ORDERS" "USER_ID" "USERS").2
      "ORDERS" "USER_ID" "USERS").2 = sessW :=
  link_unlink_round_trip sessW "ORDERS" "USER_ID" "USERS" (by decide)

/-- C6: for every table name present in the graph, `remove_table(name)`
succeeds and cascades — the snapshot taken afterwards contains no link whose
source or destination equals the removed name — and `remove_table` fails when
the name does not exist. -/
theorem remove_table_cascade (s : Session) (name : String) :
    (name ∈ s.graph.tableNames →
      (TableTools.remove_table s name).1.success = true ∧
      ∀ l ∈ (get_graph_metadata ((TableTools.remove_table s name).2).graph).links,
        l.source_table ≠ name ∧ l.destination_table ≠ name) ∧
    (name ∉ s.graph.tableNames →
      (TableTools.remove_table s name).1.success = false) := by
  constructor
  · intro hmem
    have hrm : s.graph.remove_table name = .ok
        { tables := s.graph.tables.filter (fun t => t.name != name)
          edges := s.graph.edges.filter
            (fun e => !(e.src_table == name || e.dst_table == name)) } := by
      unfold LocalGraph.remove_table
      rw [if_pos hmem]
    constructor
    · simp [TableTools.remove_table, hrm]
    · intro l hl
      simp only [TableTools.remove_table, hrm] at hl
      simp only [get_graph_metadata, List.mem_map] at hl
      obtain ⟨e, he, rfl⟩ := hl
      have hpe := (List.mem_filter.mp he).2
      simp only [Bool.not_eq_eq_eq_not, Bool.not_true, Bool.or_eq_false_iff,
        beq_eq_false_iff_ne, ne_eq] at hpe
      exact ⟨hpe.1, hpe.2⟩
  · intro hmem
    have hrm : s.graph.remove_table name =
        .error ("Table " ++ name ++ " does not exist") := by
      unfold LocalGraph.remove_table
      rw [if_neg hmem]
    simp [TableTools.remove_table, hrm]

def linkedGraph : LocalGraph :=
  { tables := [usersT, ordersT], edges := [Edge.mk "ORDERS" "USER_ID" "USERS"] }

def sessL : Session :=
  { name := "default", initialized := true, graph := linkedGraph,
    _model := none, model := none, api_key := some "key" }

/-- Witness for C6: removing `USERS` from a graph with a link touching it. -/
theorem remove_table_cascade_witness :
    (TableTools.remove_table sessL "USERS").1.success = true ∧
    ∀ l ∈ (get_graph_metadata ((TableTools.remove_table sessL "USERS").2).graph).links,
      l.source_table ≠ "USERS" ∧ l.destination_table ≠ "USERS" :=
  (remove_table_cascade sessL "USERS").1 (by decide)

theorem alLookup_snapshotList (cols : List (String × Column)) (l : List (String × Dtype))
    (c : String) (dt : Dtype)
    (hdc : alLookup l c = some dt) (hcols : alLookup cols c = none) :
    alLookup (l.map (fun p => (p.1,
        match alLookup cols p.1 with
        | some col => col.dtype
        | none => p.2))) c = some dt ∧
    alLookup (l.map (fun p => (p.1,
        match alLookup cols p.1 with
        | some col => some col.stype
        | none => none))) c = some (none : Option Stype) := by
  induction l with
  | nil => simp [alLookup] at hdc
  | cons p rest ih =>
    by_cases hp : p.1 = c
    · rw [alLookup, if_pos hp] at hdc
      have hval : p.2 = dt := Option.some_inj.mp hdc
      constructor
      · simp [alLookup, hp, hcols, hval]
      · simp [alLookup, hp, hcols]
    · rw [alLookup, if_neg hp] at hdc
      have hrest := ih hdc
      constructor
      · simp [alLookup, hp, hrest.1]
      · simp [alLookup, hp, hrest.2]

/-- The single-item metadata update that discards a column (sets its semantic
type to `None`). -/
def discardTU (c : String) : UpdateTableMetadata :=
  { stypes := [(c, none)], primary_key := none, time_column := none }

def discardUpdate (tname c : String) : UpdateGraphMetadata :=
  { tables_to_update := [(tname, discardTU c)], links_to_remove := [], links_to_add := [] }

/-- C9: discarding an existing data column of a table via a metadata update
(semantic type set to `None`) keeps the column visible: the update succeeds
and the returned snapshot still lists the column in the table's dtypes, with
its semantic type reported as `None`. -/
theorem discarded_column_still_listed (ext : Ext) (s : Session) (tname c : String)
    (t : LocalTable) (dt : Dtype)
    (hft : s.graph.findTable tname = some t)
    (hdc : alLookup t.dataCols c = some dt) :
    ∃ md, (GraphTools.update_graph_metadata ext s (discardUpdate tname c)).1 = .ok md ∧
      ∃ tm ∈ md.tables, tm.name = tname ∧
        alLookup tm.dtypes c = some dt ∧ alLookup tm.stypes c = some none := by
  have hname : t.name = tname := by
    have := List.find?_some hft
    exact eq_of_beq this
  have htmem : t ∈ s.graph.tables := List.mem_of_find?_eq_some hft
  have key : ∃ T : LocalTable,
      stypeItemStep ext s.graph tname (c, none) = .ok (s.graph.updateTable tname T) ∧
      T.name = t.name ∧ T.dataCols = t.dataCols ∧ alLookup T.cols c = none := by
    by_cases hc : t.hasColumn c = true
    · refine ⟨t.removeColumn c, ?_, rfl, rfl, alLookup_filter_ne t.cols c⟩
      simp [stypeItemStep, hft, hc, pure, Except.pure, bind, Except.bind]
    · refine ⟨LocalTable.removeColumn
        { t with cols := t.cols ++ [(c, { dtype := dt, stype := ext.inferStype dt })] } c,
        ?_, rfl, rfl, alLookup_filter_ne _ c⟩
      simp [stypeItemStep, hft, hc, LocalTable.add_column, hdc, pure, Except.pure, bind, Except.bind]
  obtain ⟨T, hstep, hTname, hTdata, hTcols⟩ := key
  have h2 : applyStypeList ext tname s.graph [(c, none)] =
      .ok (s.graph.updateTable tname T) := by
    simp [applyStypeList, hstep, bind, Except.bind]
  have h3 : applyTableUpdate ext s.graph tname (discardTU c) =
      .ok (s.graph.updateTable tname T) := by
    simp [applyTableUpdate, discardTU, h2, bind, Except.bind, pure, Except.pure]
  have h4 : GraphTools.updateCore ext s.graph (discardUpdate tname c) =
      (.ok (get_graph_metadata (s.graph.updateTable tname T)), s.graph.updateTable tname T) := by
    simp [GraphTools.updateCore, discardUpdate, seqLoop, h3]
  have h5 : (GraphTools.update_graph_metadata ext s (discardUpdate tname c)).1 =
      .ok (get_graph_metadata (s.graph.updateTable tname T)) := by
    show (GraphTools.updateCore ext s.graph (discardUpdate tname c)).1 = _
    rw [h4]
  refine ⟨get_graph_metadata (s.graph.updateTable tname T), h5, tableSnapshot T, ?_, ?_, ?_, ?_⟩
  · show tableSnapshot T ∈ (s.graph.updateTable tname T).tables.map tableSnapshot
    refine List.mem_map_of_mem tableSnapshot ?_
    show T ∈ s.graph.tables.map (fun x => if x.name = tname then T else x)
    refine List.mem_map.mpr ⟨t, htmem, ?_⟩
    rw [if_pos hname]
  · show T.name = tname
    rw [hTname, hname]
  · have := (alLookup_snapshotList T.cols T.dataCols c dt (by rw [hTdata]; exact hdc) hTcols).1
    exact this
  · have := (alLookup_snapshotList T.cols T.dataCols c dt (by rw [hTdata]; exact hdc) hTcols).2
    exact this

/-- Witness for C9: discarding `AGE` on the fixture `USERS` table. -/
theorem discarded_column_still_listed_witness :
    ∃ md, (GraphTools.update_graph_metadata extFix sessW (discardUpdate "USERS" "AGE")).1 =
        .ok md ∧
      ∃ tm ∈ md.tables, tm.name = "USERS" ∧
        alLookup tm.dtypes "AGE" = some Dtype.float ∧
        alLookup tm.stypes "AGE" = some none :=
  discarded_column_still_listed extFix sessW "USERS" "AGE" usersT Dtype.float rfl (by decide)

def badTU : UpdateTableMetadata :=
  { stypes := [("X", some Stype.numerical)], primary_key := none, time_column := none }

def badUpdate : UpdateGraphMetadata :=
  { tables_to_update := [("NOPE", badTU)], links_to_remove := [], links_to_add := [] }

/-- C5 counterexample: on an update referencing a nonexistent table,
`graph_tools.update_graph_metadata` does not return a structure carrying a
success flag — it raises `ToolError` across the tool boundary (the `.error`
outcome of the embedded function). -/
theorem update_graph_metadata_tool_error_counterexample :
    (GraphTools.update_graph_metadata extFix sessW badUpdate).1 =
      .error "Table NOPE does not exist" := rfl

theorem convertAnchor_error_ne (pt : String → Option Timestamp) (a : Option String)
    (e : String) (h : convertAnchor pt a = .error e) : e ≠ "" := by
  unfold convertAnchor at h
  split at h
  · exact Except.noConfusion h
  rename_i str
  by_cases h1 : str = ""
  · rw [if_pos h1] at h
    exact Except.noConfusion h
  rw [if_neg h1] at h
  by_cases h2 : str = "entity"
  · rw [if_pos h2] at h
    exact Except.noConfusion h
  rw [if_neg h2] at h
  split at h
  · exact Except.noConfusion h
  · have he : e = "Invalid anchor_time format: " ++ str ++
        ". Use YYYY-MM-DD format or entity" := ((Except.error.injEq _ _).mp h).symm
    rw [he]
    exact append_ne_empty_left _ _ (append_ne_empty_left _ _ (by decide))

/-- C5 (amended): every dictionary-returning operation embedded here —
`add_table`, `remove_table`, `link_tables`, `unlink_tables`, `predict`,
`validate_query` — totally returns a structured result carrying a success
flag and a nonempty textual message, and leaves the session unchanged when
the flag is false; the graph-metadata pair is the exception: it returns bare
metadata and raises `ToolError` on invalid names (see the counterexample). -/
theorem tool_results_carry_flag_and_message {α : Type}
    (ext : Ext) (s : Session) (path name src k dst : String)
    (oracle : ModelHandle → PredictArgs → α)
    (parseTs : String → Option Timestamp) (q : String) (a : Option String)
    (rm : String) (nn : Option (List Nat)) (mpi : Nat)
    (po : ModelHandle → String → Except String Unit) :
    ((TableTools.add_table ext s path name).1.message ≠ "" ∧
      ((TableTools.add_table ext s path name).1.success = false →
        (TableTools.add_table ext s path name).2 = s)) ∧
    ((TableTools.remove_table s name).1.message ≠ "" ∧
      ((TableTools.remove_table s name).1.success = false →
        (TableTools.remove_table s name).2 = s)) ∧
    ((GraphTools.link_tables s src k dst).1.message ≠ "" ∧
      ((GraphTools.link_tables s src k dst).1.success = false →
        (GraphTools.link_tables s src k dst).2 = s)) ∧
    ((GraphTools.unlink_tables s src k dst).1.message ≠ "" ∧
      ((GraphTools.unlink_tables s src k dst).1.success = false →
        (GraphTools.unlink_tables s src k dst).2 = s)) ∧
    (ModelTools.predict oracle parseTs s q a rm nn mpi).message ≠ "" ∧
    (ModelTools.validate_query po s q).message ≠ "" := by
  refine ⟨?_, ?_, ?_, ?_, ?_, ?_⟩
  · by_cases hext : (!(TableTools.strEndsWith path ".csv" ||
        TableTools.strEndsWith path ".parquet")) = true
    · have hres : TableTools.add_table ext s path name =
          ({ success := false, message := "Can not read file from path " ++ path ++
            ". Only csv or parquet files are supported" }, s) := by
        simp [TableTools.add_table, hext]
      rw [hres]
      refine ⟨?_, fun _ => rfl⟩
      show ("Can not read file from path " ++ path ++
        ". Only csv or parquet files are supported") ≠ ""
      exact append_ne_empty_left _ _ (append_ne_empty_left _ _ (by decide))
    · cases hl : ext.loadTable path with
      | error e =>
        have hres : TableTools.add_table ext s path name =
            ({ success := false, message := "Could not load data source from " ++ path ++
              ". " ++ e }, s) := by
          simp [TableTools.add_table, hext, hl]
        rw [hres]
        refine ⟨?_, fun _ => rfl⟩
        show ("Could not load data source from " ++ path ++ ". " ++ e) ≠ ""
        exact append_ne_empty_left _ _
          (append_ne_empty_left _ _ (append_ne_empty_left _ _ (by decide)))
      | ok it =>
        cases ha : s.graph.add_table (TableTools.mkLocalTable path name it) with
        | ok g2 =>
          have hres : TableTools.add_table ext s path name =
              ({ success := true, message := "Table with name " ++ name ++
                " added successfully" }, { s with graph := g2 }) := by
            simp [TableTools.add_table, hext, hl, ha]
          rw [hres]
          refine ⟨?_, fun hf => Bool.noConfusion hf⟩
          show ("Table with name " ++ name ++ " added successfully") ≠ ""
          exact append_ne_empty_left _ _ (append_ne_empty_left _ _ (by decide))
        | error e =>
          have hres : TableTools.add_table ext s path name =
              ({ success := false, message := "Failed to register table with name " ++
                name ++ ". " ++ e }, s) := by
            simp [TableTools.add_table, hext, hl, ha]
          rw [hres]
          refine ⟨?_, fun _ => rfl⟩
          show ("Failed to register table with name " ++ name ++ ". " ++ e) ≠ ""
          exact append_ne_empty_left _ _
            (append_ne_empty_left _ _ (append_ne_empty_left _ _ (by decide)))
  · cases hr : s.graph.remove_table name with
    | ok g2 =>
      have hres : TableTools.remove_table s name =
          ({ success := true, message := "Table with name " ++ name ++
            " removed successfully" }, { s with graph := g2 }) := by
        simp [TableTools.remove_table, hr]
      rw [hres]
      refine ⟨?_, fun hf => Bool.noConfusion hf⟩
      show ("Table with name " ++ name ++ " removed successfully") ≠ ""
      exact append_ne_empty_left _ _ (append_ne_empty_left _ _ (by decide))
    | error e =>
      have hres : TableTools.remove_table s name =
          ({ success := false, message := "Failed to remove table with name " ++
            name ++ ". " ++ e }, s) := by
        simp [TableTools.remove_table, hr]
      rw [hres]
      refine ⟨?_, fun _ => rfl⟩
      show ("Failed to remove table with name " ++ name ++ ". " ++ e) ≠ ""
      exact append_ne_empty_left _ _
        (append_ne_empty_left _ _ (append_ne_empty_left _ _ (by decide)))
  · cases hl : s.graph.link src k dst with
    | ok g2 =>
      have hres : GraphTools.link_tables s src k dst =
          ({ success := true, message := "Successfully linked " ++ src ++ " and " ++
            dst ++ " by " ++ k }, { s with graph := g2 }) := by
        simp [GraphTools.link_tables, hl]
      rw [hres]
      refine ⟨?_, fun hf => Bool.noConfusion hf⟩
      show ("Successfully linked " ++ src ++ " and " ++ dst ++ " by " ++ k) ≠ ""
      exact append_ne_empty_left _ _ (append_ne_empty_left _ _ (append_ne_empty_left _ _
        (append_ne_empty_left _ _ (append_ne_empty_left _ _ (by decide)))))
    | error e =>
      have hres : GraphTools.link_tables s src k dst =
          ({ success := false, message := "Failed to link " ++ src ++ " and " ++
            dst ++ " by " ++ k ++ ". " ++ e }, s) := by
        simp [GraphTools.link_tables, hl]
      rw [hres]
      refine ⟨?_, fun _ => rfl⟩
      show ("Failed to link " ++ src ++ " and " ++ dst ++ " by " ++ k ++ ". " ++ e) ≠ ""
      exact append_ne_empty_left _ _ (append_ne_empty_left _ _ (append_ne_empty_left _ _
        (append_ne_empty_left _ _ (append_ne_empty_left _ _ (append_ne_empty_left _ _
          (append_ne_empty_left _ _ (by decide)))))))
  · cases hl : s.graph.unlink src k dst with
    | ok g2 =>
      have hres : GraphTools.unlink_tables s src k dst =
          ({ success := true, message := "Successfully unlinked " ++ src ++ " and " ++
            dst ++ " by " ++ k }, { s with graph := g2 }) := by
        simp [GraphTools.unlink_tables, hl]
      rw [hres]
      refine ⟨?_, fun hf => Bool.noConfusion hf⟩
      show ("Successfully unlinked " ++ src ++ " and " ++ dst ++ " by " ++ k) ≠ ""
      exact append_ne_empty_left _ _ (append_ne_empty_left _ _ (append_ne_empty_left _ _
        (append_ne_empty_left _ _ (append_ne_empty_left _ _ (by decide)))))
    | error e =>
      have hres : GraphTools.unlink_tables s src k dst =
          ({ success := false, message := "Failed to unlink " ++ src ++ " and " ++
            dst ++ " by " ++ k ++ ". " ++ e }, s) := by
        simp [GraphTools.unlink_tables, hl]
      rw [hres]
      refine ⟨?_, fun _ => rfl⟩
      show ("Failed to unlink " ++ src ++ " and " ++ dst ++ " by " ++ k ++ ". " ++ e) ≠ ""
      exact append_ne_empty_left _ _ (append_ne_empty_left _ _ (append_ne_empty_left _ _
        (append_ne_empty_left _ _ (append_ne_empty_left _ _ (append_ne_empty_left _ _
          (append_ne_empty_left _ _ (by decide)))))))
  · cases hm : s.model with
    | none =>
      have hres : ModelTools.predict oracle parseTs s q a rm nn mpi =
          { success := false,
            message := "No model available. Please call finalize_graph first",
            data := none } := by
        simp [ModelTools.predict, hm]
      rw [hres]
      show ("No model available. Please call finalize_graph first" : String) ≠ ""
      decide
    | some m =>
      cases hca : convertAnchor parseTs a with
      | error msg =>
        have hres : ModelTools.predict oracle parseTs s q a rm nn mpi =
            { success := false, message := msg, data := none } := by
          simp [ModelTools.predict, hm, hca]
        rw [hres]
        exact convertAnchor_error_ne parseTs a msg hca
      | ok av =>
        have hres : ModelTools.predict oracle parseTs s q a rm nn mpi =
            { success := true, message := "Prediction completed successfully",
              data := some (oracle m (mkPredictArgs q av rm nn mpi)) } := by
          simp [ModelTools.predict, hm, hca]
        rw [hres]
        show ("Prediction completed successfully" : String) ≠ ""
        decide
  · cases hm : s.model with
    | none =>
      have hres : ModelTools.validate_query po s q =
          { success := false,
            message := "No model available. Please call finalize_graph first" } := by
        simp [ModelTools.validate_query, hm]
      rw [hres]
      show ("No model available. Please call finalize_graph first" : String) ≠ ""
      decide
    | some m =>
      cases hp : po m q with
      | ok u =>
        have hres : ModelTools.validate_query po s q =
            { success := true, message := "Query validated successfully" } := by
          simp [ModelTools.validate_query, hm, hp]
        rw [hres]
        show ("Query validated successfully" : String) ≠ ""
        decide
      | error e =>
        have hres : ModelTools.validate_query po s q =
            { success := false, message := "Query validation failed. " ++ e } := by
          simp [ModelTools.validate_query, hm, hp]
        rw [hres]
        show ("Query validation failed. " ++ e) ≠ ""
        exact append_ne_empty_left _ _ (by decide)

/-- Witness for C5 (amended) at a failing concrete link call: nonempty
message and unchanged session. -/
theorem tool_results_carry_flag_and_message_witness :
    (GraphTools.link_tables sessW "ORDERS" "USER_ID" "NOPE").1.message ≠ "" ∧
    (GraphTools.link_tables sessW "ORDERS" "USER_ID" "NOPE").2 = sessW := by
  have h := tool_results_carry_flag_and_message extFix sessW "x.csv" "USERS" "ORDERS"
    "USER_ID" "NOPE" predOracleW parseTsW "q" none "fast" none 20 parseQueryW
  exact ⟨h.2.2.1.1, h.2.2.1.2 (by decide)⟩

end KumoRfmMcp
